import Mathlib

/-!
Shallow embedding of the alpha-video converter repository:
the ffmpeg wasm worker (src/1.视频转换/src/ffmpeg-worker.js), the
client task-state logic (src/1.视频转换/frontend/src/App.tsx), and the
API surface (frontend services + the backend contract of the README/spec).

JavaScript numbers that the code treats exactly (tolerance, feather,
progress, ROI percentages) are modelled as rationals; strings as `String`.
The JavaScript `x || d` defaulting idiom (which replaces every falsy
value — `undefined`, `0`, the empty string — by the default) is modelled
explicitly by the `jsOr*` helpers.
-/

namespace AlphaVid

/-- JavaScript `x || d` on an optional number: `undefined` and `0` are falsy. -/
def jsOrQ (x : Option ℚ) (d : ℚ) : ℚ :=
  match x with
  | none => d
  | some v => if v = 0 then d else v

/-- JavaScript `x || d` on an optional string: `undefined` and `""` are falsy. -/
def jsOrStr (x : Option String) (d : String) : String :=
  match x with
  | none => d
  | some s => if s = "" then d else s

/-- JavaScript `x || y` where both sides are optional strings. -/
def jsOrOptStr (x : Option String) (y : Option String) : Option String :=
  match x with
  | none => y
  | some s => if s = "" then y else some s

/-- JavaScript `Math.min` on two (non-NaN) numbers. -/
def mathMin (a b : ℚ) : ℚ :=
  if a ≤ b then a else b

/-- JavaScript `Math.max` on two (non-NaN) numbers. -/
def mathMax (a b : ℚ) : ℚ :=
  if a ≤ b then b else a

/-- RGB triple produced by `hexToRgbObj` in ffmpeg-worker.js. -/
structure Rgb where
  r : Nat
  g : Nat
  b : Nat
deriving DecidableEq, Repr

/-- Character class `[a-f\d]` of the worker's colour regex, case-insensitive. -/
def isHexDigitChar (c : Char) : Bool :=
  ('0' ≤ c && c ≤ '9') || ('a' ≤ c && c ≤ 'f') || ('A' ≤ c && c ≤ 'F')

/-- Numeric value of one hex digit, as `parseInt(_, 16)` sees it
(0 for characters outside the class; such characters never reach
`parseInt` in the worker because the regex match guards it). -/
def hexVal (c : Char) : Nat :=
  if '0' ≤ c && c ≤ '9' then c.toNat - 48
  else if 'a' ≤ c && c ≤ 'f' then c.toNat - 87
  else if 'A' ≤ c && c ≤ 'F' then c.toNat - 55
  else 0

/-- Value of a two-hex-digit group, `parseInt(r[i], 16)`. -/
def hexPair (c1 c2 : Char) : Nat :=
  hexVal c1 * 16 + hexVal c2

/-- The `#?` part of the worker's regex: strip at most one leading hash. -/
def stripHash (l : List Char) : List Char :=
  match l with
  | '#' :: rest => rest
  | _ => l

/-- Whether the stripped character list matches the rest of the regex
`^#?([a-f\d]{2})([a-f\d]{2})([a-f\d]{2})$`: exactly six hex digits. -/
def hexColorMatches (l : List Char) : Bool :=
  l.length == 6 && l.all isHexDigitChar

/-- Embedding of `hexToRgbObj` (ffmpeg-worker.js lines 23-26): regex match
against an optional hash followed by three two-hex-digit groups; on match the
groups are parsed base 16, otherwise the result is black. -/
def hexToRgbObj (hex : String) : Rgb :=
  let l := stripHash hex.data
  if hexColorMatches l then
    { r := hexPair (l.getD 0 '0') (l.getD 1 '0')
      g := hexPair (l.getD 2 '0') (l.getD 3 '0')
      b := hexPair (l.getD 4 '0') (l.getD 5 '0') }
  else
    { r := 0, g := 0, b := 0 }

/-- JavaScript `n.toString(16)` for the byte-sized values produced by
`hexToRgbObj` (each channel is below 256): one lowercase hex digit for
`n < 16`, otherwise two. -/
def jsToString16 (n : Nat) : String :=
  if n < 16 then String.mk [Nat.digitChar n]
  else String.mk [Nat.digitChar (n / 16), Nat.digitChar (n % 16)]

/-- JavaScript `s.padStart(2, '0')`. -/
def padStart2 (s : String) : String :=
  String.mk (List.replicate (2 - s.length) '0') ++ s

/-- One colour channel as emitted into the filter string:
`toString(16).padStart(2, '0')`. -/
def toHex2 (n : Nat) : String :=
  padStart2 (jsToString16 n)

/-- ConvertOptions as sent by the frontend (types.ts) and read by the
worker under the name `settings`. All fields optional. -/
structure Settings where
  color : Option String := none
  tolerance : Option ℚ := none
  feather : Option ℚ := none
  applyToAll : Option Bool := none
  edgeEnhancement : Option Bool := none
  edgeThresholdLow : Option ℚ := none
  edgeThresholdHigh : Option ℚ := none
  morphologyIterations : Option ℚ := none
  removeWatermark : Option Bool := none
  wmX : Option ℚ := none
  wmY : Option ℚ := none
  wmW : Option ℚ := none
  wmH : Option ℚ := none
deriving DecidableEq, Repr

/-- Worker line 34: `hexToRgbObj(settings.color || '#000000')`. -/
def rgbOf (settings : Settings) : Rgb :=
  hexToRgbObj (jsOrStr settings.color "#000000")

/-- Worker line 35:
`Math.min(1, Math.max(0, (settings.tolerance || 50) / 100))`. -/
def tolMap (settings : Settings) : ℚ :=
  mathMin 1 (mathMax 0 (jsOrQ settings.tolerance 50 / 100))

/-- Worker line 36: `Math.max(0, settings.feather || 0)` — computed but
never used in the argument list below. -/
def featherMap (settings : Settings) : ℚ :=
  mathMax 0 (jsOrQ settings.feather 0)

/-- Worker line 40: the colour token
`0x` + three channels rendered by `toString(16).padStart(2,'0')`. -/
def targetColor (settings : Settings) : String :=
  "0x" ++ toHex2 (rgbOf settings).r ++ toHex2 (rgbOf settings).g
    ++ toHex2 (rgbOf settings).b

/-- A stage of the video filter chain. `colorkey` is the chroma-key stage the
worker emits; `delogo` is the watermark-masking stage the README documents
(the worker never emits one). -/
inductive Stage where
  | colorkey (color : String) (similarity : ℚ) (blend : ℚ)
  | delogo (x y w h : ℚ)
deriving DecidableEq, Repr

/-- Whether a stage is a watermark-masking stage. -/
def Stage.isWatermarkMask : Stage → Bool
  | .delogo _ _ _ _ => true
  | .colorkey _ _ _ => false

/-- Blend parameter of a chroma-key stage. -/
def Stage.blendVal : Stage → Option ℚ
  | .colorkey _ _ b => some b
  | .delogo _ _ _ _ => none

/-- Similarity parameter of a chroma-key stage. -/
def Stage.similarityVal : Stage → Option ℚ
  | .colorkey _ s _ => some s
  | .delogo _ _ _ _ => none

/-- The `-vf` value of worker line 47, as a structured chain:
`colorkey=TARGETCOLOR:TOL:0.1` — a single chroma-key stage whose blend
parameter is the literal `0.1`. -/
def vfChain (settings : Settings) : List Stage :=
  [Stage.colorkey (targetColor settings) (tolMap settings) (1 / 10)]

/-- An element of the ffmpeg argument list: either a literal string or the
`-vf` filter-chain value (kept structured; it is serialised only at the
engine boundary). -/
inductive Arg where
  | lit (s : String)
  | vf (chain : List Stage)
deriving DecidableEq, Repr

/-- Worker lines 45-53: the full argument list passed to `ff.run`. -/
def ffmpegArgs (fileName : String) (settings : Settings) : List Arg :=
  [Arg.lit "-i", Arg.lit fileName,
   Arg.lit "-vf", Arg.vf (vfChain settings),
   Arg.lit "-c:v", Arg.lit "libvpx-vp9",
   Arg.lit "-b:v", Arg.lit "1.8M",
   Arg.lit "-pix_fmt", Arg.lit "yuva420p",
   Arg.lit "-an",
   Arg.lit "out.webm"]

/-- Task status enum of types.ts and the README state machine. -/
inductive TaskStatus where
  | PENDING
  | RUNNING
  | SUCCESS
  | FAILED
deriving DecidableEq, Repr

/-- Position of a status along the lifecycle
PENDING → RUNNING → terminal (SUCCESS and FAILED are both terminal). -/
def statusRank : TaskStatus → Nat
  | .PENDING => 0
  | .RUNNING => 1
  | .SUCCESS => 2
  | .FAILED => 2

/-- TaskInfo of types.ts: one status snapshot returned by the status API. -/
structure TaskInfo where
  taskId : String
  status : TaskStatus
  progress : Option ℚ := none
  resultUrl : Option String := none
  errorCode : Option String := none
  errorMessage : Option String := none
deriving DecidableEq, Repr

/-- FileInfo of types.ts. -/
structure FileInfo where
  fileId : String
  name : String
  size : Nat
  duration : ℚ
deriving DecidableEq, Repr

/-- FileProcessingState of types.ts: the client's per-file state in App.tsx. -/
structure FileState where
  file : FileInfo
  taskId : Option String := none
  status : TaskStatus
  progress : ℚ
  resultUrl : Option String := none
  error : Option String := none
deriving DecidableEq, Repr

/-- App.tsx line 58: a file is polled when it has a taskId and its status is
RUNNING or PENDING. -/
def isActive (f : FileState) : Bool :=
  f.taskId.isSome && (f.status == TaskStatus.RUNNING || f.status == TaskStatus.PENDING)

/-- App.tsx lines 66-79: merge one poll round into one file's state. The
status result matching the file's taskId (if any) overwrites the status
verbatim; progress, resultUrl and error use the JavaScript `||` fallback. -/
def applyStatus (file : FileState) (statusResults : List TaskInfo) : FileState :=
  match statusResults.find? (fun s => file.taskId == some s.taskId) with
  | some r =>
      { file with
        status := r.status
        progress := jsOrQ r.progress file.progress
        resultUrl := jsOrOptStr r.resultUrl file.resultUrl
        error := jsOrOptStr r.errorMessage file.error }
  | none => file

/-- JavaScript `Promise.all` over already-settled promises: resolves with the
list of values when all succeed, rejects with a failure when any fails. -/
def promiseAll {α : Type} : List (Except String α) → Except String (List α)
  | [] => Except.ok []
  | Except.error e :: _ => Except.error e
  | Except.ok a :: xs =>
      match promiseAll xs with
      | Except.ok as => Except.ok (a :: as)
      | Except.error e => Except.error e

/-- App.tsx lines 57-84, `pollTaskStatus`: fetch the status of every active
task (via `getStatus`, the `getTaskStatus` API call, which may fail), and on
success of the whole `Promise.all` merge every file; on any failure the catch
block only logs — no file state changes. -/
def pollTaskStatus (getStatus : String → Except String TaskInfo)
    (files : List FileState) : List FileState :=
  if (files.filter isActive).isEmpty then files
  else
    match promiseAll ((files.filter isActive).map (fun f => getStatus (f.taskId.getD ""))) with
    | Except.ok statusResults => files.map (fun f => applyStatus f statusResults)
    | Except.error _ => files

/-- App.tsx lines 130-137, the `setFiles` update of `handleStartConvert`:
every file gets the taskId at its index (if any), status RUNNING and
progress 0 — unconditionally, whatever its previous status. -/
def startConvertUpdate : List FileState → List String → List FileState
  | [], _ => []
  | f :: fs, [] =>
      { f with taskId := none, status := TaskStatus.RUNNING, progress := 0 }
        :: startConvertUpdate fs []
  | f :: fs, t :: ts =>
      { f with taskId := some t, status := TaskStatus.RUNNING, progress := 0 }
        :: startConvertUpdate fs ts

/-- App.tsx line 179: the convert button is enabled when there are files,
no convert call is in flight, and no file is RUNNING (terminal statuses
SUCCESS and FAILED do not disable it). -/
def canStartConvert (files : List FileState) (converting : Bool) : Bool :=
  decide (0 < files.length) && !converting
    && !(files.any (fun f => f.status == TaskStatus.RUNNING))

/-- Payload of a convert message to the worker (ffmpeg-worker.js line 70).
The byte buffer is irrelevant to the handler's reply discipline and is
abstracted away. -/
structure ConvertPayload where
  fileName : Option String := none
  settings : Option Settings := none

/-- One message posted back by the worker. -/
inductive WorkerReply where
  | probeOk (crossOriginIsolated : Bool)
  | convertOk
  | errReply (message : String)
deriving DecidableEq, Repr

/-- Embedding of the worker's `onmessage` handler (ffmpeg-worker.js lines
61-80), as the list of messages it posts. The effectful steps are passed in
as oracles: `ensureResult` is the outcome of `ensureFFmpeg()` (for probing),
`coi` is `self.crossOriginIsolated === true`, and `runResult` is the outcome
of `runFFmpegColorKey` on the defaulted file name and settings. A convert
message whose payload is absent throws on destructuring and is caught like
any other failure. Any thrown error is caught and posted as one message of
type error carrying the failure message. -/
def workerOnMessage (mtype : Option String) (payload : Option ConvertPayload)
    (ensureResult : Except String Unit) (coi : Bool)
    (runResult : String → Settings → Except String (List Nat)) : List WorkerReply :=
  if mtype = some "probe" then
    match ensureResult with
    | Except.ok _ => [WorkerReply.probeOk coi]
    | Except.error e => [WorkerReply.errReply e]
  else if mtype = some "convert" then
    match payload with
    | none => [WorkerReply.errReply "Cannot destructure payload"]
    | some p =>
        match runResult (jsOrStr p.fileName "input.mp4") (p.settings.getD {}) with
        | Except.ok _ => [WorkerReply.convertOk]
        | Except.error e => [WorkerReply.errReply e]
  else []

/-- Error shape of the API responses (types.ts). -/
structure ApiErr where
  code : String
  message : String
deriving DecidableEq, Repr

/-- Modelled from the spec: the backend `POST /api/convert` handler is not
part of the repository sources (the README describes a Flask/Celery backend
that is absent); spec section 6 states that convert fails with
LIMIT_EXCEEDED_COUNT when more than 10 fileIds are submitted — creating no
tasks — and that each id must reference a previously accepted UploadedFile.
On success one task is created per file id. -/
def convertEndpoint (knownFileIds : List String) (fileIds : List String) :
    Except ApiErr (List String) :=
  if 10 < fileIds.length then
    Except.error { code := "LIMIT_EXCEEDED_COUNT", message := "max 10 files" }
  else if fileIds.all (fun fid => knownFileIds.contains fid) then
    Except.ok (fileIds.map (fun fid => "task-" ++ fid))
  else
    Except.error { code := "NOT_FOUND", message := "unknown fileId" }

/-- Sample options from the spec's watermark example: tolerance 10,
feather 0.5, removeWatermark true, ROI percentages 1.2 / 1.2 / 14.0 / 5.5. -/
def c4Settings : Settings :=
  { tolerance := some 10, feather := some (1 / 2), removeWatermark := some true,
    wmX := some (6 / 5), wmY := some (6 / 5), wmW := some 14, wmH := some (11 / 2) }

/-- Sample client file state: a converted file whose task already reached
SUCCESS (as after a completed batch, with the convert button re-enabled). -/
def c5SampleFile : FileState :=
  { file := { fileId := "f1", name := "a.mp4", size := 1000, duration := 10 },
    taskId := some "t1", status := TaskStatus.SUCCESS, progress := 100,
    resultUrl := some "r1" }

/-- Sample status snapshot for a known task t1. -/
def c6Snap1 : TaskInfo :=
  { taskId := "t1", status := TaskStatus.SUCCESS, progress := some 100,
    resultUrl := some "r1" }

/-- Sample status snapshot for a known task t2. -/
def c6Snap2 : TaskInfo :=
  { taskId := "t2", status := TaskStatus.SUCCESS, progress := some 100,
    resultUrl := some "r2" }

/-- Sample status API with two known tasks; any other task id fails, as the
spec's Task Store prescribes for absent ids (NotFound). -/
def c6Store : String → Except String TaskInfo := fun t =>
  if t = "t1" then Except.ok c6Snap1
  else if t = "t2" then Except.ok c6Snap2
  else Except.error "NOT_FOUND"

/-- Sample client file state polling a task. -/
def c6File (fid tid : String) : FileState :=
  { file := { fileId := fid, name := fid ++ ".mp4", size := 1000, duration := 10 },
    taskId := some tid, status := TaskStatus.RUNNING, progress := 0 }

/-- Batch of three polled files: two with known tasks, one with an unknown
task id. -/
def c6Files : List FileState :=
  [c6File "f1" "t1", c6File "f2" "t2", c6File "f3" "t3"]

theorem hexVal_lt_16 (c : Char) : hexVal c < 16 := by
  unfold hexVal
  split_ifs with h1 h2 h3
  · simp only [Bool.and_eq_true, decide_eq_true_eq] at h1
    have hb : c.toNat ≤ 57 := h1.2
    omega
  · simp only [Bool.and_eq_true, decide_eq_true_eq] at h2
    have hb : c.toNat ≤ 102 := h2.2
    omega
  · simp only [Bool.and_eq_true, decide_eq_true_eq] at h3
    have hb : c.toNat ≤ 70 := h3.2
    omega
  · omega

theorem hexPair_lt_256 (c1 c2 : Char) : hexPair c1 c2 < 256 := by
  have h1 := hexVal_lt_16 c1
  have h2 := hexVal_lt_16 c2
  unfold hexPair
  omega

theorem hexToRgbObj_lt_256 (hex : String) :
    (hexToRgbObj hex).r < 256 ∧ (hexToRgbObj hex).g < 256
      ∧ (hexToRgbObj hex).b < 256 := by
  unfold hexToRgbObj
  by_cases hm : hexColorMatches (stripHash hex.data) = true
  · simp only [hm, if_true]
    exact ⟨hexPair_lt_256 _ _, hexPair_lt_256 _ _, hexPair_lt_256 _ _⟩
  · simp only [hm, if_false]
    exact ⟨by norm_num, by norm_num, by norm_num⟩

set_option maxRecDepth 4000 in
theorem toHex2_shape (n : Nat) (h : n < 256) :
    (toHex2 n).length = 2 ∧ (toHex2 n).data.all isHexDigitChar = true := by
  have hall : ∀ m : Fin 256,
      (toHex2 m.val).length = 2 ∧ (toHex2 m.val).data.all isHexDigitChar = true := by
    decide
  exact hall ⟨n, h⟩

/-- C1: the claim, as stated, fails at tolerance 0: the worker computes
`(settings.tolerance || 50) / 100`, and 0 is falsy in JavaScript, so
tolerance 0 is replaced by the default 50 and the similarity is 0.5,
not 0.00. -/
theorem c1_tolerance_zero_counterexample :
    tolMap { tolerance := some 0 } = 1 / 2 ∧ (1 / 2 : ℚ) ≠ 0 / 100 := by
  constructor
  · norm_num [tolMap, jsOrQ, mathMin, mathMax]
  · norm_num

/-- C1 (amended): for every tolerance in [1,100] the mapped similarity is
exactly tolerance/100 — in particular tolerance 100 maps to 1.00 — while
tolerance 0 is falsy in the worker's defaulting expression and maps to the
default 50/100 = 0.5 instead of 0.00. -/
theorem c1_tolerance_mapping_amended :
    (∀ (s : Settings) (q : ℚ), s.tolerance = some q → 1 ≤ q → q ≤ 100 →
      tolMap s = q / 100)
    ∧ tolMap { tolerance := some 0 } = 1 / 2 := by
  constructor
  · intro s q hs h1 h100
    have hq0 : q ≠ 0 := by linarith
    have hx : jsOrQ s.tolerance 50 = q := by simp [jsOrQ, hs, hq0]
    have h0 : (0 : ℚ) ≤ q / 100 := div_nonneg (by linarith) (by norm_num)
    have hle : q / 100 ≤ 1 := by
      rw [div_le_one (by norm_num : (0 : ℚ) < 100)]
      linarith
    unfold tolMap mathMin mathMax
    rw [hx, if_pos h0]
    by_cases hc : (1 : ℚ) ≤ q / 100
    · rw [if_pos hc]
      exact le_antisymm hc hle
    · rw [if_neg hc]
  · norm_num [tolMap, jsOrQ, mathMin, mathMax]

/-- C1 witness: tolerance 7 maps to similarity 7/100. -/
theorem c1_tolerance_mapping_witness :
    tolMap { tolerance := some 7 } = 7 / 100 :=
  c1_tolerance_mapping_amended.1 { tolerance := some 7 } 7 rfl (by norm_num)
    (by norm_num)

/-- C2: the claim fails at feather 10: the worker's filter string hard-codes
the blend parameter as the literal 0.1, so the blend is 1/10 and not
feather/10 = 1. -/
theorem c2_blend_constant_counterexample :
    (vfChain { feather := some 10 }).map Stage.blendVal = [some (1 / 10)]
      ∧ ((1 : ℚ) / 10) ≠ 10 / 10 :=
  ⟨rfl, by norm_num⟩

/-- C2 (amended): for every settings value the blend parameter of the
chroma-key stage is the constant 0.1; the feather option does not influence
the generated chain at all. -/
theorem c2_blend_constant_amended :
    ∀ s : Settings, (vfChain s).map Stage.blendVal = [some (1 / 10)] :=
  fun _ => rfl

/-- C3: the claim fails at tolerance 150: the worker silently clamps the
similarity to 1 via Math.min/Math.max, signals no validation error, and
still produces a (one-stage) filter chain. -/
theorem c3_no_validation_error_counterexample :
    (vfChain { tolerance := some 150 }).length = 1
      ∧ tolMap { tolerance := some 150 } = 1
      ∧ ((150 : ℚ) / 100) ≠ 1 := by
  refine ⟨rfl, ?_, by norm_num⟩
  norm_num [tolMap, jsOrQ, mathMin, mathMax]

/-- C3 (amended): out-of-range numeric options are silently clamped rather
than rejected: for every settings value the mapped similarity lies in
[0, 1] and a filter chain (of exactly one chroma-key stage) is produced;
no validation error exists in the mapper. -/
theorem c3_silent_clamp_amended :
    ∀ s : Settings, 0 ≤ tolMap s ∧ tolMap s ≤ 1 ∧ (vfChain s).length = 1 := by
  intro s
  unfold tolMap mathMin mathMax
  by_cases h0 : (0 : ℚ) ≤ jsOrQ s.tolerance 50 / 100
  · rw [if_pos h0]
    by_cases h1 : (1 : ℚ) ≤ jsOrQ s.tolerance 50 / 100
    · rw [if_pos h1]
      exact ⟨by norm_num, le_refl 1, rfl⟩
    · rw [if_neg h1]
      exact ⟨h0, le_of_not_le h1, rfl⟩
  · rw [if_neg h0, if_neg (by norm_num : ¬(1 : ℚ) ≤ 0)]
    exact ⟨le_refl 0, by norm_num, rfl⟩

/-- C4: the claim fails on the spec's own watermark example: with
removeWatermark true (and the example ROI), the generated chain contains no
watermark-masking stage at all — the worker only emits the chroma-key stage
and explicitly leaves watermark removal to the main thread. -/
theorem c4_no_watermark_stage_counterexample :
    c4Settings.removeWatermark = some true
      ∧ (vfChain c4Settings).any Stage.isWatermarkMask = false :=
  ⟨rfl, rfl⟩

/-- C4 (amended): for every input, whatever removeWatermark is, the
generated filter chain contains no watermark-masking stage; it consists of
the chroma-key stage only. -/
theorem c4_no_watermark_stage_amended :
    ∀ s : Settings, (vfChain s).any Stage.isWatermarkMask = false :=
  fun _ => rfl

/-- C5: the claim fails in the client: with one file whose task already
reached SUCCESS, the convert button is enabled again, and starting a convert
unconditionally resets the file's status to RUNNING — the observed sequence
moves from the later state SUCCESS back to the earlier state RUNNING. -/
theorem c5_status_regression_counterexample :
    canStartConvert [c5SampleFile] false = true
      ∧ c5SampleFile.status = TaskStatus.SUCCESS
      ∧ (startConvertUpdate [c5SampleFile] ["t2"]).map FileState.status
          = [TaskStatus.RUNNING]
      ∧ statusRank TaskStatus.RUNNING < statusRank TaskStatus.SUCCESS :=
  ⟨rfl, rfl, rfl, by decide⟩

/-- C5 (amended): convert start always sets every file's status to RUNNING
(so it is monotone only from PENDING or RUNNING), and a poll update copies
the server-reported status verbatim, so it never regresses provided every
matching report is at least as far along as the file's current status.
Without these provisos the status can regress (see the counterexample:
a second convert start resets terminal files to RUNNING). -/
theorem c5_monotonicity_amended :
    (∀ (files : List FileState) (tids : List String) (g : FileState),
        g ∈ startConvertUpdate files tids → g.status = TaskStatus.RUNNING)
    ∧ (∀ (f : FileState) (rs : List TaskInfo),
        (∀ r ∈ rs, f.taskId = some r.taskId →
          statusRank f.status ≤ statusRank r.status) →
        statusRank f.status ≤ statusRank (applyStatus f rs).status) := by
  constructor
  · intro files
    induction files with
    | nil =>
      intro tids g hg
      cases tids <;> simp [startConvertUpdate] at hg
    | cons f fs ih =>
      intro tids g hg
      cases tids with
      | nil =>
        simp only [startConvertUpdate, List.mem_cons] at hg
        rcases hg with h | h
        · rw [h]
        · exact ih [] g h
      | cons t ts =>
        simp only [startConvertUpdate, List.mem_cons] at hg
        rcases hg with h | h
        · rw [h]
        · exact ih ts g h
  · intro f rs h
    rcases hfind : rs.find? (fun s => f.taskId == some s.taskId) with - | r
    · simp [applyStatus, hfind]
    · have hmem := List.mem_of_find?_eq_some hfind
      have hpred := List.find?_some hfind
      have heq : f.taskId = some r.taskId := eq_of_beq hpred
      have hle := h r hmem heq
      simpa [applyStatus, hfind] using hle

/-- C5 witness: a poll round with no results leaves the rank unchanged. -/
theorem c5_monotonicity_witness :
    statusRank c5SampleFile.status
      ≤ statusRank (applyStatus c5SampleFile []).status :=
  c5_monotonicity_amended.2 c5SampleFile []
    (fun r hr => absurd hr (List.not_mem_nil r))

theorem promiseAll_isError {α : Type} (l : List (Except String α))
    (h : ∃ x ∈ l, ∃ e, x = Except.error e) :
    ∃ e, promiseAll l = Except.error e := by
  induction l with
  | nil =>
    rcases h with ⟨x, hx, -⟩
    cases hx
  | cons a as ih =>
    rcases h with ⟨x, hx, e, he⟩
    rcases List.mem_cons.mp hx with h1 | h1
    · subst h1
      cases x with
      | error e' => exact ⟨e', rfl⟩
      | ok v => simp at he
    · cases a with
      | error e' => exact ⟨e', rfl⟩
      | ok v =>
        obtain ⟨e'', he''⟩ := ih ⟨x, h1, e, he⟩
        refine ⟨e'', ?_⟩
        simp [promiseAll, he'']

/-- C6: the claim fails on the client: polling a batch of three tasks of
which two are known and one is unknown, the per-task requests are combined
with Promise.all, so the one NotFound failure rejects the whole batch; the
catch block only logs, and no file state is updated — the two known tasks
whose snapshots report SUCCESS stay RUNNING. -/
theorem c6_partial_batch_counterexample :
    pollTaskStatus c6Store c6Files = c6Files
      ∧ c6Store "t1" = Except.ok c6Snap1
      ∧ c6Snap1.status = TaskStatus.SUCCESS
      ∧ c6Files.map FileState.status
          = [TaskStatus.RUNNING, TaskStatus.RUNNING, TaskStatus.RUNNING]
      ∧ c6Store "t3" = Except.error "NOT_FOUND" :=
  ⟨rfl, rfl, rfl, rfl, rfl⟩

/-- C6 (amended): when the status lookup of any actively polled task fails
(e.g. an unknown task id), the whole poll round is abandoned and no file's
state is updated; partial results are not applied. -/
theorem c6_batch_failure_amended :
    ∀ (getStatus : String → Except String TaskInfo) (files : List FileState),
      (∃ f ∈ files.filter isActive,
        ∃ e, getStatus (f.taskId.getD "") = Except.error e) →
      pollTaskStatus getStatus files = files := by
  intro getStatus files h
  obtain ⟨f, hf, e, he⟩ := h
  have hne : (files.filter isActive).isEmpty = false := by
    rcases hl : files.filter isActive with - | ⟨a, as⟩
    · rw [hl] at hf
      cases hf
    · rfl
  obtain ⟨e', he'⟩ := promiseAll_isError
    ((files.filter isActive).map (fun g => getStatus (g.taskId.getD "")))
    ⟨getStatus (f.taskId.getD ""),
      List.mem_map_of_mem (fun g => getStatus (g.taskId.getD "")) hf, e, he⟩
  simp [pollTaskStatus, hne, he']

/-- C6 witness: a poll of a single file with an unknown task id leaves the
state unchanged. -/
theorem c6_batch_failure_witness :
    pollTaskStatus c6Store [c6File "f3" "t3"] = [c6File "f3" "t3"] :=
  c6_batch_failure_amended c6Store [c6File "f3" "t3"]
    ⟨c6File "f3" "t3",
      List.mem_filter.mpr ⟨List.mem_singleton_self _, rfl⟩, "NOT_FOUND", rfl⟩

/-- C7: for every convert submission with more than 10 file ids the endpoint
fails with LIMIT_EXCEEDED_COUNT and creates no tasks, and a submission of at
most 10 file ids is never rejected with that code. -/
theorem c7_limit_count :
    ∀ (knownFileIds fileIds : List String),
      (10 < fileIds.length →
        convertEndpoint knownFileIds fileIds
          = Except.error { code := "LIMIT_EXCEEDED_COUNT", message := "max 10 files" })
      ∧ (fileIds.length ≤ 10 →
          ∀ e, convertEndpoint knownFileIds fileIds = Except.error e →
            e.code ≠ "LIMIT_EXCEEDED_COUNT") := by
  intro kf ids
  constructor
  · intro h
    unfold convertEndpoint
    rw [if_pos h]
  · intro h e hconv
    unfold convertEndpoint at hconv
    rw [if_neg (not_lt.mpr h)] at hconv
    by_cases hall : ids.all (fun fid => kf.contains fid) = true
    · rw [if_pos hall] at hconv
      simp at hconv
    · rw [if_neg hall] at hconv
      have : ({ code := "NOT_FOUND", message := "unknown fileId" } : ApiErr) = e :=
        Except.error.inj hconv
      rw [← this]
      decide

/-- C7 witness: submitting 11 file ids fails with LIMIT_EXCEEDED_COUNT. -/
theorem c7_limit_count_witness :
    convertEndpoint [] (List.replicate 11 "f")
      = Except.error { code := "LIMIT_EXCEEDED_COUNT", message := "max 10 files" } :=
  (c7_limit_count [] (List.replicate 11 "f")).1 (by simp)

/-- C8: the parameter mapper is pure and deterministic — two calls with
identical file name and identical settings produce the identical ffmpeg
argument list (including the colorkey filter specification). -/
theorem c8_mapper_deterministic :
    ∀ (fileName1 fileName2 : String) (s1 s2 : Settings),
      fileName1 = fileName2 → s1 = s2 →
      ffmpegArgs fileName1 s1 = ffmpegArgs fileName2 s2 := by
  intro f1 f2 s1 s2 hf hs
  rw [hf, hs]

/-- C8 witness: two identical calls on a concrete input agree. -/
theorem c8_mapper_deterministic_witness :
    ffmpegArgs "a.mp4" { tolerance := some 10 }
      = ffmpegArgs "a.mp4" { tolerance := some 10 } :=
  c8_mapper_deterministic "a.mp4" "a.mp4" { tolerance := some 10 }
    { tolerance := some 10 } rfl rfl

/-- C9: every colour string that does not match an optional hash followed by
exactly six hex digits is silently mapped to black; the token emitted into
the filter chain is always the two characters 0x followed by exactly six hex
digits (each channel zero-padded to two digits); and the missing colour and
the empty colour both yield black. -/
theorem c9_color_fallback_and_token :
    (∀ hex : String, hexColorMatches (stripHash hex.data) = false →
        hexToRgbObj hex = { r := 0, g := 0, b := 0 })
    ∧ (∀ s : Settings,
        (targetColor s).length = 8
        ∧ (targetColor s).data.take 2 = ['0', 'x']
        ∧ ((targetColor s).data.drop 2).all isHexDigitChar = true)
    ∧ hexToRgbObj (jsOrStr none "#000000") = { r := 0, g := 0, b := 0 }
    ∧ hexToRgbObj (jsOrStr (some "") "#000000") = { r := 0, g := 0, b := 0 } := by
  refine ⟨?_, ?_, by decide, by decide⟩
  · intro hex hm
    unfold hexToRgbObj
    simp [hm]
  · intro s
    obtain ⟨hr, hg, hb⟩ := hexToRgbObj_lt_256 (jsOrStr s.color "#000000")
    obtain ⟨hrl, hra⟩ := toHex2_shape _ hr
    obtain ⟨hgl, hga⟩ := toHex2_shape _ hg
    obtain ⟨hbl, hba⟩ := toHex2_shape _ hb
    unfold targetColor rgbOf
    refine ⟨?_, ?_, ?_⟩
    · simp [String.length_append, hrl, hgl, hbl]
      decide
    · simp [String.data_append]
    · simp [String.data_append, List.all_append, hra, hga, hba]

/-- C9 witness: the colour string black does not match the pattern and maps
to the RGB triple (0,0,0). -/
theorem c9_color_fallback_witness :
    hexToRgbObj "black" = { r := 0, g := 0, b := 0 } :=
  c9_color_fallback_and_token.1 "black" (by decide)

/-- C10: for every probe or convert message the worker posts exactly one
reply — the matching ok message on success, or one error message carrying
the failure text when any step fails. -/
theorem c10_one_reply :
    ∀ (mtype : Option String) (payload : Option ConvertPayload)
      (ensureResult : Except String Unit) (coi : Bool)
      (runResult : String → Settings → Except String (List Nat)),
      mtype = some "probe" ∨ mtype = some "convert" →
      (workerOnMessage mtype payload ensureResult coi runResult).length = 1 := by
  intro mtype payload ensureResult coi runResult h
  rcases h with h | h <;> subst h
  · unfold workerOnMessage
    rw [if_pos rfl]
    cases ensureResult <;> rfl
  · unfold workerOnMessage
    rw [if_neg (by decide), if_pos rfl]
    cases payload with
    | none => rfl
    | some p =>
      rcases hrun : runResult (jsOrStr p.fileName "input.mp4") (p.settings.getD {})
        with v | e
      · simp [hrun]
      · simp [hrun]

/-- C10 witness: a successful probe posts exactly one reply. -/
theorem c10_one_reply_witness :
    (workerOnMessage (some "probe") none (Except.ok ()) true
      (fun _ _ => Except.ok [])).length = 1 :=
  c10_one_reply (some "probe") none (Except.ok ()) true
    (fun _ _ => Except.ok []) (Or.inl rfl)

end AlphaVid
